import Mathlib

/-!
Shallow embedding of the multiscale metadata validation engine of
`ome-zarr-models-py` (files `src/ome_zarr_models/v04/coordinate_transformations.py`
and `src/ome_zarr_models/v04/multiscales.py`), together with theorems settling
the frozen claims about it.

Numeric scalars in the metadata (`float` in the source) are only parsed,
stored and compared for equality - never computed with - so they are modelled
by `Rat`.
-/

namespace OmeZarr

/-- Numeric scalar carried by the metadata (`float` in the source; only
stored and compared, never computed with). -/
abbrev JNum := Rat

/-- The tagged union of coordinate transformations from
`coordinate_transformations.py`: `Identity`, `VectorScale`, `PathScale`,
`VectorTranslation`, `PathTranslation`.  Note that in the source the
`PathTranslation` class stores its path reference in a field named
`translation : str` (not `path`), which the constructor argument here mirrors. -/
inductive Transformation where
  | identity : Transformation
  | vectorScale (scale : List JNum) : Transformation
  | pathScale (path : String) : Transformation
  | vectorTranslation (translation : List JNum) : Transformation
  | pathTranslation (translation : String) : Transformation
deriving DecidableEq, Repr

namespace Transformation

/-- The `type` discriminator field of each variant
(`Literal["identity" | "scale" | "translation"]` in the source). -/
def type : Transformation → String
  | .identity => "identity"
  | .vectorScale _ => "scale"
  | .pathScale _ => "scale"
  | .vectorTranslation _ => "translation"
  | .pathTranslation _ => "translation"

/-- Membership in the `VectorTransform = VectorScale | VectorTranslation`
union (the `isinstance(v, VectorTransform)` test in the source). -/
def isVector : Transformation → Bool
  | .vectorScale _ => true
  | .vectorTranslation _ => true
  | _ => false

/-- Membership in the `ScaleTransform = VectorScale | PathScale` union. -/
def isScale : Transformation → Bool
  | .vectorScale _ => true
  | .pathScale _ => true
  | _ => false

/-- Membership in the
`TranslationTransform = VectorTranslation | PathTranslation` union. -/
def isTranslation : Transformation → Bool
  | .vectorTranslation _ => true
  | .pathTranslation _ => true
  | _ => false

end Transformation

/-- The error taxonomy of the validation engine.  The source raises
`ValueError` (and `KeyError` for a missing `multiscales` key) with distinct
messages; each constructor here corresponds to one distinct failure site. -/
inductive SchemaErr where
  | wrongDiscriminator (got : String) : SchemaErr
  | wrongArity (got : Nat) : SchemaErr
  | wrongOrder (position : Nat) (got : String) : SchemaErr
  | dimMismatch (ndims : List Nat) : SchemaErr
  | axisCountOutOfRange (got : Nat) : SchemaErr
  | axisNameDuplicate (names : List String) : SchemaErr
  | axisTypeCountViolation (which : String) : SchemaErr
  | axisTransformMismatch (axes ndim : Nat) : SchemaErr
  | missingArray (path : String) : SchemaErr
  | wrongNodeKind (path : String) : SchemaErr
  | arrayDimMismatch (path : String) (axes arrayNdim : Nat) : SchemaErr
  | malformedRecord : SchemaErr
deriving DecidableEq, Repr

/-- The dimensionalities of the vector-parametrized members of a transform
sequence: `tuple(map(_ndim, filter(lambda v: isinstance(v, VectorTransform), transforms)))`
in `_ensure_transform_dimensionality`. -/
def vectorNdims (transforms : List Transformation) : List Nat :=
  (transforms.filter Transformation.isVector).map fun t =>
    match t with
    | .vectorScale s => s.length
    | .vectorTranslation tr => tr.length
    | _ => 0

/-- `_ensure_transform_dimensionality` from `multiscales.py`: collect the
`ndim` of every vector-parametrized member, and reject when the set of
distinct values has more than one element; path-parametrized members are
skipped. -/
def ensure_transform_dimensionality (transforms : List Transformation) :
    Except SchemaErr (List Transformation) :=
  if 1 < (vectorNdims transforms).dedup.length then
    .error (.dimMismatch (vectorNdims transforms))
  else
    .ok transforms

/-- `_ensure_scale_translation` from `multiscales.py`: there are 1 or 2
transforms, the first is scale-typed, and the second (when present) is
translation-typed. -/
def ensure_scale_translation (transforms : List Transformation) :
    Except SchemaErr (List Transformation) :=
  match transforms with
  | [t0] =>
    if t0.type = "scale" then .ok transforms
    else .error (.wrongOrder 0 t0.type)
  | [t0, t1] =>
    if t0.type = "scale" then
      if t1.type = "translation" then .ok transforms
      else .error (.wrongOrder 1 t1.type)
    else .error (.wrongOrder 0 t0.type)
  | _ => .error (.wrongArity transforms.length)

/-- The union type annotation
`tuple[ScaleTransform] | tuple[ScaleTransform, TranslationTransform]`
checked by pydantic on `Dataset.coordinateTransformations` and on
`Multiscale.coordinateTransformations` before any `AfterValidator` runs. -/
def transformTupleTypeOk (transforms : List Transformation) : Bool :=
  match transforms with
  | [t0] => t0.isScale
  | [t0, t1] => t0.isScale && t1.isTranslation
  | _ => false

/-- Pydantic validation pipeline of `Dataset.coordinateTransformations`:
the `AfterValidator(_ensure_scale_translation)` followed by
`AfterValidator(_ensure_transform_dimensionality)`. -/
def validateDatasetTransforms (transforms : List Transformation) :
    Except SchemaErr (List Transformation) :=
  match ensure_scale_translation transforms with
  | .error e => .error e
  | .ok ts => ensure_transform_dimensionality ts

/-- `Dataset` model from `multiscales.py` (a pyramid level): a `path` and a
validated transform sequence. -/
structure Dataset where
  path : String
  coordinateTransformations : List Transformation
deriving DecidableEq, Repr

/-- Validating constructor for `Dataset`: pydantic runs the transform
pipeline at construction time, so a `Dataset` value only exists when its
transform sequence passed both validators. -/
def Dataset.make (path : String) (transforms : List Transformation) :
    Except SchemaErr Dataset :=
  match validateDatasetTransforms transforms with
  | .error e => .error e
  | .ok ts => .ok ⟨path, ts⟩

/-- `_build_transforms` from `coordinate_transformations.py`: a
`VectorScale`, optionally followed by a `VectorTranslation`. -/
def build_transforms (scale : List JNum) (translation : Option (List JNum)) :
    List Transformation :=
  match translation with
  | none => [.vectorScale scale]
  | some t => [.vectorScale scale, .vectorTranslation t]

/-- `Dataset.build` from `multiscales.py`: construct a `Dataset` from a path,
a scale and a translation via `_build_transforms`; construction-time
validation still runs. -/
def Dataset.build (path : String) (scale : List JNum)
    (translation : Option (List JNum)) : Except SchemaErr Dataset :=
  Dataset.make path (build_transforms scale translation)

/-- Modelled from the spec: the `Axis` model lives in
`ome_zarr_models/v04/axes.py`, which is not among the provided sources.  Per
the spec it is `name: string`, `type: one of {space, time, channel, <custom>}`,
`optional unit: string`. -/
structure Axis where
  name : String
  type : String
  unit : Option String := none
deriving DecidableEq, Repr

/-- Modelled from the spec: `get_args(AxisType)`, the fixed enumeration of
standard axis types from `axes.py` (not among the provided sources); the spec
fixes it to `{space, time, channel}`. -/
def axisTypeArgs : List String := ["space", "time", "channel"]

/-- Modelled from the spec: `duplicates` from `ome_zarr_models/utils.py`
(not among the provided sources); per the axis name-uniqueness rule it
returns the values occurring more than once in the input. -/
def duplicates (xs : List String) : List String :=
  (xs.filter fun x => 1 < xs.count x).dedup

/-- `_ensure_axis_length` from `multiscales.py`: between 2 and 5 axes
(`VALID_NDIM = (2, 3, 4, 5)`). -/
def ensure_axis_length (axes : List Axis) : Except SchemaErr (List Axis) :=
  if axes.length = 2 ∨ axes.length = 3 ∨ axes.length = 4 ∨ axes.length = 5 then
    .ok axes
  else
    .error (.axisCountOutOfRange axes.length)

/-- `_ensure_axis_names` from `multiscales.py`: the axis names are unique. -/
def ensure_axis_names (axes : List Axis) : Except SchemaErr (List Axis) :=
  let nameDupes := duplicates (axes.map Axis.name)
  if 0 < nameDupes.length then
    .error (.axisNameDuplicate nameDupes)
  else
    .ok axes

/-- `_ensure_axis_types` from `multiscales.py`: 2 or 3 `space` axes, the
`space` axes come last, at most 1 `time` axis, at most 1 `channel` axis, and
`custom_axes = set(axis_types) - set(get_args(AxisType))` must have at most
one element.  Note the last check counts distinct non-standard type NAMES
(a set difference over type values), not non-standard-typed axes. -/
def ensure_axis_types (axes : List Axis) : Except SchemaErr (List Axis) :=
  let axisTypes := axes.map Axis.type
  let numSpaces := axisTypes.count "space"
  if ¬(numSpaces = 2 ∨ numSpaces = 3) then
    .error (.axisTypeCountViolation "space")
  else if ¬((axisTypes.drop (axisTypes.length - numSpaces)).all (· = "space")) then
    .error (.axisTypeCountViolation "space-order")
  else if 1 < axisTypes.count "time" then
    .error (.axisTypeCountViolation "time")
  else if 1 < axisTypes.count "channel" then
    .error (.axisTypeCountViolation "channel")
  else if 1 < ((axisTypes.filter fun t => t ∉ axisTypeArgs).dedup).length then
    .error (.axisTypeCountViolation "custom")
  else
    .ok axes

/-- Pydantic validation pipeline of `Multiscale.axes`:
`AfterValidator(_ensure_axis_length)`, `AfterValidator(_ensure_axis_names)`,
`AfterValidator(_ensure_axis_types)` in that order. -/
def validateAxes (axes : List Axis) : Except SchemaErr (List Axis) :=
  match ensure_axis_length axes with
  | .error e => .error e
  | .ok a =>
    match ensure_axis_names a with
    | .error e => .error e
    | .ok a => ensure_axis_types a

/-- `Multiscale` model from `multiscales.py`: validated axes, a non-empty
list of datasets and an optional group-level transform sequence (the opaque
passthrough fields `version`, `metadata`, `name`, `type` carry no validation
and are omitted). -/
structure Multiscale where
  datasets : List Dataset
  axes : List Axis
  coordinateTransformations : Option (List Transformation) := none
deriving DecidableEq, Repr

/-- `Multiscale.ndim`: the length of the axes list. -/
def Multiscale.ndim (m : Multiscale) : Nat := m.axes.length

/-- A node of the flattened child mapping of a `MultiscaleGroup`
(`pydantic_zarr`: an `ArraySpec` carries a `shape`, a `GroupSpec` does not). -/
inductive ZarrNode where
  | array (shape : List Nat) : ZarrNode
  | group : ZarrNode
deriving DecidableEq, Repr

/-- `MultiscaleGroupAttrs` from `multiscales.py`: the non-empty `multiscales`
metadata (the optional `omero` field carries no validation and is omitted). -/
structure MultiscaleGroupAttrs where
  multiscales : List Multiscale
deriving DecidableEq, Repr

/-- `MultiscaleGroup` from `multiscales.py`, with its nested member hierarchy
already flattened into the single-level path-to-node mapping that
`data.to_flat()` produces inside `_check_arrays_compatible`. -/
structure MultiscaleGroup where
  attributes : MultiscaleGroupAttrs
  flatMembers : List (String × ZarrNode)
deriving DecidableEq, Repr

/-- Python `dataset.path.lstrip("/")`: remove every leading `/`. -/
def lstripSlash (s : String) : String :=
  ⟨s.toList.dropWhile fun c => c = '/'⟩

/-- The key under which `_check_arrays_compatible` looks a dataset path up in
the flattened mapping: `"/" + dataset.path.lstrip("/")`. -/
def validationKey (path : String) : String := "/" ++ lstripSlash path

/-- The key under which `from_zarr` inserts a discovered array into
`members_tree_flat`: `"/" + dataset.path` (no stripping). -/
def insertionKey (path : String) : String := "/" ++ path

/-- The body of the `_check_arrays_compatible` loop for one dataset: look the
flattened path up (absent: missing-array `ValueError`), reject a sub-group
(wrong-node-kind `ValueError`), and compare the array rank with the
multiscale `ndim` (dimensionality-mismatch `ValueError`). -/
def checkDataset (flat : List (String × ZarrNode)) (msNdim : Nat)
    (ds : Dataset) : Except SchemaErr Unit :=
  match flat.lookup (validationKey ds.path) with
  | none => .error (.missingArray ds.path)
  | some .group => .error (.wrongNodeKind ds.path)
  | some (.array shape) =>
    if shape.length ≠ msNdim then
      .error (.arrayDimMismatch ds.path msNdim shape.length)
    else
      .ok ()

/-- The inner loop of `_check_arrays_compatible` over one multiscale's
datasets; the source short-circuits by raising on the first failure. -/
def checkDatasets (flat : List (String × ZarrNode)) (msNdim : Nat) :
    List Dataset → Except SchemaErr Unit
  | [] => .ok ()
  | ds :: rest =>
    match checkDataset flat msNdim ds with
    | .error e => .error e
    | .ok _ => checkDatasets flat msNdim rest

/-- The outer loop of `_check_arrays_compatible` over the multiscales. -/
def checkMultiscales (flat : List (String × ZarrNode)) :
    List Multiscale → Except SchemaErr Unit
  | [] => .ok ()
  | ms :: rest =>
    match checkDatasets flat ms.axes.length ms.datasets with
    | .error e => .error e
    | .ok _ => checkMultiscales flat rest

/-- `_check_arrays_compatible` from `multiscales.py`, the
`model_validator(mode="after")` of `MultiscaleGroup`: every array referenced
by the `multiscales` metadata exists, is not a group, and has dimensionality
consistent with the number of axes; the validated group is returned. -/
def check_arrays_compatible (data : MultiscaleGroup) :
    Except SchemaErr MultiscaleGroup :=
  match checkMultiscales data.flatMembers data.attributes.multiscales with
  | .error e => .error e
  | .ok _ => .ok data

/-- JSON-like values: the shape of the attribute documents the models parse
from and serialize to (`model_dump` output / pydantic input). -/
inductive Json where
  | str (s : String) : Json
  | num (n : JNum) : Json
  | arr (xs : List Json) : Json
  | obj (fields : List (String × Json)) : Json

/-- Field lookup in a JSON object (absent on non-objects). -/
def Json.get? (j : Json) (k : String) : Option Json :=
  match j with
  | .obj fields => fields.lookup k
  | _ => none

/-- Read a JSON array of numbers as a `list[float]`. -/
def jsonNumList? (j : Json) : Option (List JNum) :=
  match j with
  | .arr xs =>
    xs.mapM fun x =>
      match x with
      | .num n => some n
      | _ => none
  | _ => none

/-- Serialization (`model_dump`) of a `Transformation`: each variant emits its
`type` tag plus its own field - in particular `PathTranslation` emits its
string under the key `translation` (the name of its field in the source),
while `PathScale` emits its string under `path`. -/
def Transformation.toJson : Transformation → Json
  | .identity => .obj [("type", .str "identity")]
  | .vectorScale s => .obj [("type", .str "scale"), ("scale", .arr (s.map .num))]
  | .pathScale p => .obj [("type", .str "scale"), ("path", .str p)]
  | .vectorTranslation t =>
    .obj [("type", .str "translation"), ("translation", .arr (t.map .num))]
  | .pathTranslation t =>
    .obj [("type", .str "translation"), ("translation", .str t)]

/-- Parsing a JSON record into a `Transformation`, mirroring how pydantic
resolves the tagged union: the `type` tag selects the kind, and the shape of
the remaining field selects vector- versus path-parametrization.  A
translation record is `VectorTranslation` when its `translation` field is a
number list and `PathTranslation` when its `translation` field is a string;
a record carrying `type = "translation"` and only a `path` field matches
neither translation variant (both require the `translation` field). -/
def parseTransformation (j : Json) : Except SchemaErr Transformation :=
  match j.get? "type" with
  | some (.str "identity") => .ok .identity
  | some (.str "scale") =>
    (match j.get? "scale" with
     | some v =>
       (match jsonNumList? v with
        | some ns => .ok (.vectorScale ns)
        | none => .error .malformedRecord)
     | none =>
       (match j.get? "path" with
        | some (.str p) => .ok (.pathScale p)
        | _ => .error .malformedRecord))
  | some (.str "translation") =>
    (match j.get? "translation" with
     | some (.str t) => .ok (.pathTranslation t)
     | some v =>
       (match jsonNumList? v with
        | some ns => .ok (.vectorTranslation ns)
        | none => .error .malformedRecord)
     | none => .error .malformedRecord)
  | some (.str other) => .error (.wrongDiscriminator other)
  | _ => .error .malformedRecord

/-- Serialization (`model_dump`) of a `Dataset`. -/
def Dataset.toJson (d : Dataset) : Json :=
  .obj [("path", .str d.path),
        ("coordinateTransformations",
         .arr (d.coordinateTransformations.map Transformation.toJson))]

/-- Parsing a JSON record into a `Dataset`: read the fields, parse each
transform, then run the construction-time validators. -/
def parseDataset (j : Json) : Except SchemaErr Dataset :=
  match j.get? "path" with
  | some (.str p) =>
    (match j.get? "coordinateTransformations" with
     | some (.arr txs) =>
       (match txs.mapM parseTransformation with
        | .error e => .error e
        | .ok ts => Dataset.make p ts)
     | _ => .error .malformedRecord)
  | _ => .error .malformedRecord

/-! ### Helper lemmas -/

lemma length_dropWhile_le (p : α → Bool) (l : List α) :
    (l.dropWhile p).length ≤ l.length := by
  induction l with
  | nil => simp [List.dropWhile]
  | cons a t ih =>
    rw [List.dropWhile]
    cases h : p a with
    | true => exact ih.trans (Nat.le_succ _)
    | false => exact Nat.le_refl _

lemma two_le_dedup_length {l : List ℕ} {m n : ℕ} (hm : m ∈ l) (hn : n ∈ l)
    (hne : m ≠ n) : 1 < l.dedup.length := by
  have hm' : m ∈ l.dedup := List.mem_dedup.mpr hm
  have hn' : n ∈ l.dedup := List.mem_dedup.mpr hn
  match h : l.dedup with
  | [] => rw [h] at hm'; exact absurd hm' (List.not_mem_nil m)
  | [a] =>
    rw [h] at hm' hn'
    rw [List.mem_singleton] at hm' hn'
    exact absurd (hm'.trans hn'.symm) hne
  | a :: b :: t => simp [List.length_cons]

lemma ensure_transform_dimensionality_ok_iff (ts : List Transformation) :
    ensure_transform_dimensionality ts = .ok ts ↔
      ¬(1 < (vectorNdims ts).dedup.length) := by
  unfold ensure_transform_dimensionality
  constructor
  · intro h hlt
    rw [if_pos hlt] at h
    exact Except.noConfusion h
  · intro h
    rw [if_neg h]

lemma ensure_transform_dimensionality_ok_eq {ts r : List Transformation}
    (h : ensure_transform_dimensionality ts = .ok r) : r = ts := by
  unfold ensure_transform_dimensionality at h
  split at h
  · exact Except.noConfusion h
  · exact (Except.ok.inj h).symm

lemma ensure_scale_translation_ok {ts r : List Transformation}
    (h : ensure_scale_translation ts = .ok r) :
    r = ts ∧ (ts.length = 1 ∨ ts.length = 2) ∧
      (∀ t0, ts.get? 0 = some t0 → t0.type = "scale") ∧
      (∀ t1, ts.get? 1 = some t1 → t1.type = "translation") := by
  match ts with
  | [] => exact Except.noConfusion h
  | [t0] =>
    rw [ensure_scale_translation] at h
    split at h
    case isTrue hty =>
      refine ⟨(Except.ok.inj h).symm, Or.inl rfl, ?_, ?_⟩
      · intro t ht
        rw [Option.some.inj ht] at hty
        exact hty
      · intro t ht
        exact Option.noConfusion ht
    case isFalse => exact Except.noConfusion h
  | [t0, t1] =>
    rw [ensure_scale_translation] at h
    split at h
    case isTrue h0 =>
      split at h
      case isTrue h1 =>
        refine ⟨(Except.ok.inj h).symm, Or.inr rfl, ?_, ?_⟩
        · intro t ht
          rw [Option.some.inj ht] at h0
          exact h0
        · intro t ht
          rw [Option.some.inj ht] at h1
          exact h1
      case isFalse => exact Except.noConfusion h
    case isFalse => exact Except.noConfusion h
  | t0 :: t1 :: t2 :: rest => exact Except.noConfusion h

lemma ensure_scale_translation_ok_self {ts r : List Transformation}
    (h : ensure_scale_translation ts = .ok r) :
    ensure_scale_translation ts = .ok ts := by
  rw [(ensure_scale_translation_ok h).1] at h
  exact h

lemma validateDatasetTransforms_ok {ts r : List Transformation}
    (h : validateDatasetTransforms ts = .ok r) :
    r = ts ∧ ensure_scale_translation ts = .ok ts ∧
      ensure_transform_dimensionality ts = .ok ts := by
  unfold validateDatasetTransforms at h
  match hst : ensure_scale_translation ts with
  | .error e => rw [hst] at h; exact Except.noConfusion h
  | .ok ts1 =>
    have hts1 : ts1 = ts := (ensure_scale_translation_ok hst).1
    rw [hst] at h
    have h2 : ensure_transform_dimensionality ts1 = .ok r := h
    rw [hts1] at h2
    have hr : r = ts := ensure_transform_dimensionality_ok_eq h2
    rw [hr] at h2
    exact ⟨hr, by rw [hts1], h2⟩

lemma validateDatasetTransforms_error_of_st {ts : List Transformation}
    {e : SchemaErr} (h : ensure_scale_translation ts = .error e) :
    validateDatasetTransforms ts = .error e := by
  unfold validateDatasetTransforms
  rw [h]

lemma dataset_make_ok {p : String} {ts : List Transformation} {d : Dataset}
    (h : Dataset.make p ts = .ok d) :
    d = ⟨p, ts⟩ ∧ validateDatasetTransforms ts = .ok ts := by
  unfold Dataset.make at h
  match hv : validateDatasetTransforms ts with
  | .error e => rw [hv] at h; exact Except.noConfusion h
  | .ok ts1 =>
    have hts1 : ts1 = ts := (validateDatasetTransforms_ok hv).1
    rw [hv] at h
    have h2 : Except.ok (ε := SchemaErr) (⟨p, ts1⟩ : Dataset) = .ok d := h
    rw [hts1] at h2
    exact ⟨(Except.ok.inj h2).symm, by rw [hts1]⟩

lemma dataset_make_error_of_st {p : String} {ts : List Transformation}
    {e : SchemaErr} (h : ensure_scale_translation ts = .error e) :
    Dataset.make p ts = .error e := by
  unfold Dataset.make
  rw [validateDatasetTransforms_error_of_st h]

lemma checkDataset_ok_iff (flat : List (String × ZarrNode)) (n : Nat)
    (ds : Dataset) :
    checkDataset flat n ds = .ok () ↔
      ∃ shape, flat.lookup (validationKey ds.path) = some (.array shape) ∧
        shape.length = n := by
  cases h : flat.lookup (validationKey ds.path) with
  | none => simp [checkDataset, h]
  | some node =>
    cases node with
    | group => simp [checkDataset, h]
    | array shape =>
      by_cases hlen : shape.length = n
      · simp [checkDataset, h, hlen]
      · simp [checkDataset, h, hlen]

lemma checkDatasets_ok_iff (flat : List (String × ZarrNode)) (n : Nat)
    (l : List Dataset) :
    checkDatasets flat n l = .ok () ↔
      ∀ ds ∈ l, checkDataset flat n ds = .ok () := by
  induction l with
  | nil => simp [checkDatasets]
  | cons d t ih =>
    unfold checkDatasets
    cases hd : checkDataset flat n d with
    | error e => simp [hd]
    | ok u => cases u; simp [hd, ih]

lemma checkDatasets_error {flat : List (String × ZarrNode)} {n : Nat}
    {l : List Dataset} {e : SchemaErr}
    (h : checkDatasets flat n l = .error e) :
    ∃ ds ∈ l, checkDataset flat n ds = .error e := by
  induction l with
  | nil => exact Except.noConfusion h
  | cons d t ih =>
    unfold checkDatasets at h
    cases hd : checkDataset flat n d with
    | error e2 =>
      rw [hd] at h
      have he : e2 = e := Except.error.inj h
      rw [he] at hd
      exact ⟨d, List.mem_cons_self d t, hd⟩
    | ok u =>
      cases u
      rw [hd] at h
      obtain ⟨ds, hmem, hds⟩ := ih h
      exact ⟨ds, List.mem_cons_of_mem d hmem, hds⟩

lemma checkMultiscales_ok_iff (flat : List (String × ZarrNode))
    (l : List Multiscale) :
    checkMultiscales flat l = .ok () ↔
      ∀ ms ∈ l, ∀ ds ∈ ms.datasets,
        checkDataset flat ms.axes.length ds = .ok () := by
  induction l with
  | nil => simp [checkMultiscales]
  | cons m t ih =>
    unfold checkMultiscales
    cases hm : checkDatasets flat m.axes.length m.datasets with
    | error e =>
      simp only [hm]
      constructor
      · intro hk
        exact Except.noConfusion hk
      · intro hall
        have := (checkDatasets_ok_iff flat m.axes.length m.datasets).mpr
          (hall m (List.mem_cons_self m t))
        rw [hm] at this
        exact Except.noConfusion this
    | ok u =>
      cases u
      simp only [hm, ih]
      constructor
      · intro hall ms hms
        rcases List.mem_cons.mp hms with hms | hms
        · rw [hms]
          exact (checkDatasets_ok_iff flat m.axes.length m.datasets).mp hm
        · exact hall ms hms
      · intro hall ms hms
        exact hall ms (List.mem_cons_of_mem m hms)

lemma jsonNumList_map (s : List JNum) :
    jsonNumList? (.arr (s.map Json.num)) = some s := by
  show (s.map Json.num).mapM _ = some s
  induction s with
  | nil => rfl
  | cons a t ih =>
    rw [List.map_cons, List.mapM_cons, ih]
    rfl

lemma parseTransformation_toJson (t : Transformation) :
    parseTransformation t.toJson = .ok t := by
  cases t with
  | identity => rfl
  | pathScale p => rfl
  | pathTranslation p => rfl
  | vectorScale s =>
    show (match jsonNumList? (.arr (s.map Json.num)) with
          | some ns => Except.ok (Transformation.vectorScale ns)
          | none => Except.error SchemaErr.malformedRecord) =
      .ok (.vectorScale s)
    rw [jsonNumList_map]
  | vectorTranslation s =>
    show (match jsonNumList? (.arr (s.map Json.num)) with
          | some ns => Except.ok (Transformation.vectorTranslation ns)
          | none => Except.error SchemaErr.malformedRecord) =
      .ok (.vectorTranslation s)
    rw [jsonNumList_map]

lemma mapM_parse_toJson (ts : List Transformation) :
    (ts.map Transformation.toJson).mapM parseTransformation = .ok ts := by
  induction ts with
  | nil => rfl
  | cons a t ih =>
    rw [List.map_cons, List.mapM_cons, parseTransformation_toJson, ih]
    rfl

lemma parseDataset_toJson {d : Dataset}
    (hv : validateDatasetTransforms d.coordinateTransformations =
      .ok d.coordinateTransformations) :
    parseDataset d.toJson = .ok d := by
  obtain ⟨p, ts⟩ := d
  show (match (ts.map Transformation.toJson).mapM parseTransformation with
        | .error e => Except.error e
        | .ok ts2 => Dataset.make p ts2) = .ok ⟨p, ts⟩
  rw [mapM_parse_toJson]
  show Dataset.make p ts = .ok ⟨p, ts⟩
  unfold Dataset.make
  rw [hv]

lemma checkMultiscales_error {flat : List (String × ZarrNode)}
    {l : List Multiscale} {e : SchemaErr}
    (h : checkMultiscales flat l = .error e) :
    ∃ ms ∈ l, ∃ ds ∈ ms.datasets,
      checkDataset flat ms.axes.length ds = .error e := by
  induction l with
  | nil => exact Except.noConfusion h
  | cons m t ih =>
    unfold checkMultiscales at h
    cases hm : checkDatasets flat m.axes.length m.datasets with
    | error e2 =>
      rw [hm] at h
      have he : e2 = e := Except.error.inj h
      rw [he] at hm
      obtain ⟨ds, hmem, hds⟩ := checkDatasets_error hm
      exact ⟨m, List.mem_cons_self m t, ds, hmem, hds⟩
    | ok u =>
      cases u
      rw [hm] at h
      obtain ⟨ms, hms, ds, hmem, hds⟩ := ih h
      exact ⟨ms, List.mem_cons_of_mem m hms, ds, hmem, hds⟩

lemma identity_mem_ensure_st_error {ts : List Transformation}
    (h : Transformation.identity ∈ ts) :
    ∃ e, ensure_scale_translation ts = .error e := by
  match ts with
  | [] => exact absurd h (List.not_mem_nil _)
  | [t0] =>
    obtain rfl : Transformation.identity = t0 := List.mem_singleton.mp h
    exact ⟨.wrongOrder 0 "identity", rfl⟩
  | [t0, t1] =>
    rcases List.mem_cons.mp h with h0 | h1
    · rw [← h0]
      exact ⟨.wrongOrder 0 "identity", rfl⟩
    · obtain rfl : Transformation.identity = t1 := List.mem_singleton.mp h1
      by_cases h0 : t0.type = "scale"
      · refine ⟨.wrongOrder 1 "identity", ?_⟩
        show (if t0.type = "scale" then
                if Transformation.identity.type = "translation" then
                  Except.ok [t0, Transformation.identity]
                else Except.error
                  (SchemaErr.wrongOrder 1 Transformation.identity.type)
              else Except.error (SchemaErr.wrongOrder 0 t0.type)) =
          Except.error (SchemaErr.wrongOrder 1 "identity")
        rw [if_pos h0]
        rfl
      · refine ⟨.wrongOrder 0 t0.type, ?_⟩
        show (if t0.type = "scale" then
                if Transformation.identity.type = "translation" then
                  Except.ok [t0, Transformation.identity]
                else Except.error
                  (SchemaErr.wrongOrder 1 Transformation.identity.type)
              else Except.error (SchemaErr.wrongOrder 0 t0.type)) =
          Except.error (SchemaErr.wrongOrder 0 t0.type)
        rw [if_neg h0]
  | t0 :: t1 :: t2 :: rest =>
    exact ⟨.wrongArity (t0 :: t1 :: t2 :: rest).length, rfl⟩

/-! ### Claim theorems -/

/-- C5: every transform sequence accepted as a `Dataset`'s
`coordinateTransformations` has a scale-typed element 0 and a
translation-typed element 1 (when present); a sequence of valid arity whose
first element is not scale-typed, or whose second element is not
translation-typed - in particular the reversed sequence
`[VectorTranslation, VectorScale]` - is rejected with a wrong-order error. -/
theorem dataset_transforms_scale_then_translation :
    (∀ p ts d, Dataset.make p ts = .ok d →
      (∀ t0, ts.get? 0 = some t0 → t0.type = "scale") ∧
      (∀ t1, ts.get? 1 = some t1 → t1.type = "translation")) ∧
    (∀ p ts t0, ts.length ≤ 2 → ts.get? 0 = some t0 → t0.type ≠ "scale" →
      Dataset.make p ts = .error (.wrongOrder 0 t0.type)) ∧
    (∀ p t0 t1, t0.type = "scale" → t1.type ≠ "translation" →
      Dataset.make p [t0, t1] = .error (.wrongOrder 1 t1.type)) ∧
    Dataset.make "0" [.vectorTranslation [0], .vectorScale [1]] =
      .error (.wrongOrder 0 "translation") := by
  refine ⟨?_, ?_, ?_, rfl⟩
  · intro p ts d h
    obtain ⟨-, hst, -⟩ := validateDatasetTransforms_ok (dataset_make_ok h).2
    obtain ⟨-, -, h0, h1⟩ := ensure_scale_translation_ok hst
    exact ⟨h0, h1⟩
  · intro p ts t0 hlen h0 hty
    apply dataset_make_error_of_st
    match ts, h0, hlen with
    | [a], h0, _ =>
      obtain rfl : a = t0 := Option.some.inj h0
      show (if a.type = "scale" then Except.ok [a]
            else Except.error (SchemaErr.wrongOrder 0 a.type)) =
        Except.error (SchemaErr.wrongOrder 0 a.type)
      rw [if_neg hty]
    | [a, b], h0, _ =>
      obtain rfl : a = t0 := Option.some.inj h0
      show (if a.type = "scale" then
              if b.type = "translation" then Except.ok [a, b]
              else Except.error (SchemaErr.wrongOrder 1 b.type)
            else Except.error (SchemaErr.wrongOrder 0 a.type)) =
        Except.error (SchemaErr.wrongOrder 0 a.type)
      rw [if_neg hty]
    | a :: b :: c :: rest, _, hlen => exact absurd hlen (by simp)
  · intro p t0 t1 h0 h1
    apply dataset_make_error_of_st
    show (if t0.type = "scale" then
            if t1.type = "translation" then Except.ok [t0, t1]
            else Except.error (SchemaErr.wrongOrder 1 t1.type)
          else Except.error (SchemaErr.wrongOrder 0 t0.type)) =
      Except.error (SchemaErr.wrongOrder 1 t1.type)
    rw [if_pos h0, if_neg h1]

/-- C5 witness: the accepted singleton `[VectorScale [1]]` has a scale-typed
first element, and a sequence headed by an `Identity` is rejected as
wrong-order. -/
theorem dataset_transforms_scale_then_translation_witness :
    Transformation.type (.vectorScale [1]) = "scale" ∧
    Dataset.make "p" [.identity] = .error (.wrongOrder 0 "identity") := by
  constructor
  · exact (dataset_transforms_scale_then_translation.1 "p" [.vectorScale [1]]
      ⟨"p", [.vectorScale [1]]⟩ rfl).1 (.vectorScale [1]) rfl
  · exact dataset_transforms_scale_then_translation.2.1 "p" [.identity]
      .identity (by decide) rfl (by decide)

/-- C6: the transform-sequence dimensionality check considers only
vector-parametrized members - two distinct `ndim` values among them force a
dimensionality-mismatch rejection (e.g. a `VectorScale` of length 2 followed
by a `VectorTranslation` of length 3), while a sequence of only
path-parametrized transforms always passes. -/
theorem transform_dimensionality_vector_members_only :
    (∀ ts m n, m ∈ vectorNdims ts → n ∈ vectorNdims ts → m ≠ n →
      ensure_transform_dimensionality ts =
        .error (.dimMismatch (vectorNdims ts))) ∧
    (∀ ts, (∀ t ∈ ts, (∃ q, t = Transformation.pathScale q) ∨
        (∃ q, t = Transformation.pathTranslation q)) →
      ensure_transform_dimensionality ts = .ok ts) ∧
    ensure_transform_dimensionality
        [.vectorScale [1, 1], .vectorTranslation [0, 0, 0]] =
      .error (.dimMismatch [2, 3]) := by
  refine ⟨?_, ?_, rfl⟩
  · intro ts m n hm hn hne
    unfold ensure_transform_dimensionality
    rw [if_pos (two_le_dedup_length hm hn hne)]
  · intro ts h
    have hfilter : ts.filter Transformation.isVector = [] := by
      rw [List.filter_eq_nil_iff]
      intro t ht
      rcases h t ht with ⟨q, rfl⟩ | ⟨q, rfl⟩ <;> simp [Transformation.isVector]
    unfold ensure_transform_dimensionality vectorNdims
    rw [hfilter]
    rfl

/-- C6 witness: the mismatched pair `[VectorScale [1,1], VectorTranslation
[0,0,0]]` is rejected, and the all-path pair `[PathScale "s",
PathTranslation "t"]` passes. -/
theorem transform_dimensionality_vector_members_only_witness :
    ensure_transform_dimensionality
        [.vectorScale [1, 1], .vectorTranslation [0, 0, 0]] =
      .error (.dimMismatch [2, 3]) ∧
    ensure_transform_dimensionality [.pathScale "s", .pathTranslation "t"] =
      .ok [.pathScale "s", .pathTranslation "t"] := by
  constructor
  · exact transform_dimensionality_vector_members_only.1
      [.vectorScale [1, 1], .vectorTranslation [0, 0, 0]] 2 3
      (by decide) (by decide) (by decide)
  · refine transform_dimensionality_vector_members_only.2.1
      [.pathScale "s", .pathTranslation "t"] ?_
    intro t ht
    rcases List.mem_cons.mp ht with h1 | h2
    · exact Or.inl ⟨"s", h1.symm ▸ rfl⟩
    · obtain rfl : t = Transformation.pathTranslation "t" :=
        List.mem_singleton.mp h2
      exact Or.inr ⟨"t", rfl⟩

/-- C7: an `Identity` transformation record parses successfully standalone,
but every transform sequence containing an `Identity` element fails both the
`tuple[ScaleTransform] | tuple[ScaleTransform, TranslationTransform]` union
shape used by `Multiscale.coordinateTransformations` and the order validator
run by `Dataset`, so a `Dataset` can never be constructed from it. -/
theorem identity_standalone_ok_but_rejected_in_sequences :
    parseTransformation (.obj [("type", .str "identity")]) = .ok .identity ∧
    (∀ ts, Transformation.identity ∈ ts → transformTupleTypeOk ts = false) ∧
    (∀ p ts, Transformation.identity ∈ ts →
      ∃ e, Dataset.make p ts = .error e) := by
  refine ⟨rfl, ?_, ?_⟩
  · intro ts h
    match ts, h with
    | [t0], h =>
      obtain rfl : Transformation.identity = t0 := List.mem_singleton.mp h
      rfl
    | [t0, t1], h =>
      rcases List.mem_cons.mp h with h0 | h1
      · rw [← h0]
        rfl
      · obtain rfl : Transformation.identity = t1 := List.mem_singleton.mp h1
        show (t0.isScale && Transformation.identity.isTranslation) = false
        rw [show Transformation.identity.isTranslation = false from rfl]
        exact Bool.and_false _
    | [], h => exact absurd h (List.not_mem_nil _)
    | t0 :: t1 :: t2 :: rest, _ => rfl
  · intro p ts h
    obtain ⟨e, he⟩ := identity_mem_ensure_st_error h
    exact ⟨e, dataset_make_error_of_st he⟩

/-- C7 witness: the singleton sequence `[Identity]` fails the union shape
check and `Dataset` construction. -/
theorem identity_rejected_witness :
    transformTupleTypeOk [Transformation.identity] = false ∧
    ∃ e, Dataset.make "p" [Transformation.identity] = .error e := by
  constructor
  · exact identity_standalone_ok_but_rejected_in_sequences.2.1
      [.identity] (List.mem_singleton.mpr rfl)
  · exact identity_standalone_ok_but_rejected_in_sequences.2.2
      "p" [.identity] (List.mem_singleton.mpr rfl)

/-- C8: transform-sequence validation is pure and idempotent - whenever the
`Dataset` transform pipeline accepts a sequence it returns that sequence
unchanged, and re-running the pipeline on the returned value succeeds and
returns it unchanged again. -/
theorem transform_validation_pure_idempotent (ts r : List Transformation)
    (h : validateDatasetTransforms ts = .ok r) :
    r = ts ∧ validateDatasetTransforms r = .ok r := by
  obtain ⟨hr, hst, hdim⟩ := validateDatasetTransforms_ok h
  subst hr
  refine ⟨rfl, ?_⟩
  unfold validateDatasetTransforms
  rw [hst]
  exact hdim

/-- C8 witness: the pipeline applied to `[VectorScale [1]]` returns it
unchanged and re-validates to itself. -/
theorem transform_validation_pure_idempotent_witness :
    [Transformation.vectorScale [1]] = [Transformation.vectorScale [1]] ∧
    validateDatasetTransforms [Transformation.vectorScale [1]] =
      .ok [Transformation.vectorScale [1]] :=
  transform_validation_pure_idempotent [.vectorScale [1]]
    [.vectorScale [1]] rfl

/-- C1 (evaluation of the code at the failing input): the axes validation
pipeline of `Multiscale.axes` accepts the list
`[a:foo, b:foo, y:space, x:space]` even though it contains two axes of the
custom (non-standard) type `"foo"`: the last check of `_ensure_axis_types`
counts distinct custom type NAMES (`set(axis_types) - set(get_args(AxisType))`),
not custom-typed axes, contradicting both the claim and the function's own
docstring ("there is only 1 axis with a type that is not space, time, or
channel"). -/
theorem axis_types_accepts_two_axes_of_same_custom_type :
    validateAxes
        [⟨"a", "foo", none⟩, ⟨"b", "foo", none⟩,
         ⟨"y", "space", none⟩, ⟨"x", "space", none⟩] =
      .ok [⟨"a", "foo", none⟩, ⟨"b", "foo", none⟩,
           ⟨"y", "space", none⟩, ⟨"x", "space", none⟩] ∧
    (([⟨"a", "foo", none⟩, ⟨"b", "foo", none⟩,
       ⟨"y", "space", none⟩, ⟨"x", "space", none⟩] : List Axis).filter
        fun a => a.type ∉ axisTypeArgs).length = 2 :=
  ⟨rfl, rfl⟩

/-- C3 (evaluation of the code at the failing input): `PathTranslation`
carries its path reference in a string field named `translation`, not `path`:
a translation record with a `path` field fails to parse (both translation
variants require the `translation` field), and a serialized `PathTranslation`
emits the key `translation` and no key `path`. -/
theorem pathTranslation_uses_translation_field :
    parseTransformation
        (.obj [("type", .str "translation"), ("path", .str "foo")]) =
      .error .malformedRecord ∧
    Transformation.toJson (.pathTranslation "foo") =
      .obj [("type", .str "translation"), ("translation", .str "foo")] ∧
    Json.get? (Transformation.toJson (.pathTranslation "foo")) "path" = none :=
  ⟨rfl, rfl, rfl⟩

/-- C4 (counterexample): constructing a `VectorScale` from an empty `scale`
list succeeds - the source places no `min_length` constraint on the field -
refuting the claim that an empty scale sequence is rejected. -/
theorem vectorScale_empty_scale_accepted :
    parseTransformation (.obj [("type", .str "scale"), ("scale", .arr [])]) =
      .ok (.vectorScale []) ∧
    vectorNdims [.vectorScale []] = [0] :=
  ⟨rfl, rfl⟩

/-- C4 (amended): `VectorScale` places no constraint on the length of its
scale vector: a scale record parses successfully for every list of numbers,
including the empty one, and its `ndim` is the length of that list (so
`ndim = 0` is possible). -/
theorem vectorScale_accepts_any_scale_vector (s : List JNum) :
    parseTransformation
        (.obj [("type", .str "scale"), ("scale", .arr (s.map Json.num))]) =
      .ok (.vectorScale s) ∧
    vectorNdims [.vectorScale s] = [s.length] := by
  constructor
  · show (match jsonNumList? (.arr (s.map Json.num)) with
          | some ns => Except.ok (Transformation.vectorScale ns)
          | none => Except.error SchemaErr.malformedRecord) =
      .ok (.vectorScale s)
    rw [jsonNumList_map]
  · rfl

/-- C9: round-trip law for the convenience constructor - for every `Dataset`
built via `Dataset.build` from a path, a scale vector and an optional
translation vector, serializing it to its JSON form and parsing that form
back yields the original `Dataset`. -/
theorem dataset_build_roundtrip (p : String) (S : List JNum)
    (Tr : Option (List JNum)) (d : Dataset)
    (h : Dataset.build p S Tr = .ok d) :
    parseDataset d.toJson = .ok d := by
  unfold Dataset.build at h
  obtain ⟨hd, hv⟩ := dataset_make_ok h
  rw [hd]
  exact parseDataset_toJson hv

/-- C9 witness: the round-trip law applied to the concrete dataset built from
path `"0"`, scale `[1, 2]` and translation `[3, 4]`. -/
theorem dataset_build_roundtrip_witness :
    parseDataset
        (Dataset.toJson
          ⟨"0", [.vectorScale [1, 2], .vectorTranslation [3, 4]]⟩) =
      .ok ⟨"0", [.vectorScale [1, 2], .vectorTranslation [3, 4]]⟩ :=
  dataset_build_roundtrip "0" [1, 2] (some [3, 4])
    ⟨"0", [.vectorScale [1, 2], .vectorTranslation [3, 4]]⟩ rfl

/-- C2: a `MultiscaleGroup` passes `_check_arrays_compatible` exactly when
every dataset's flattened path resolves to an array (not a sub-group) whose
rank equals the owning multiscale's `ndim`; an absent path yields the
missing-array error, a sub-group the wrong-node-kind error, a rank mismatch
the dimensionality-mismatch error, and any construction failure is one of
these per-dataset failures. -/
theorem multiscaleGroup_datasets_resolve_to_matching_arrays :
    (∀ g g' : MultiscaleGroup, check_arrays_compatible g = .ok g' ↔
      (g' = g ∧ ∀ ms ∈ g.attributes.multiscales, ∀ ds ∈ ms.datasets,
        ∃ shape, g.flatMembers.lookup (validationKey ds.path) =
          some (.array shape) ∧ shape.length = ms.ndim)) ∧
    (∀ flat n ds, flat.lookup (validationKey ds.path) = none →
      checkDataset flat n ds = .error (.missingArray ds.path)) ∧
    (∀ flat n ds, flat.lookup (validationKey ds.path) = some .group →
      checkDataset flat n ds = .error (.wrongNodeKind ds.path)) ∧
    (∀ flat n ds shape,
      flat.lookup (validationKey ds.path) = some (.array shape) →
      shape.length ≠ n →
      checkDataset flat n ds =
        .error (.arrayDimMismatch ds.path n shape.length)) ∧
    (∀ (g : MultiscaleGroup) e, check_arrays_compatible g = .error e →
      ∃ ms ∈ g.attributes.multiscales, ∃ ds ∈ ms.datasets,
        checkDataset g.flatMembers ms.axes.length ds = .error e) := by
  have key : ∀ g : MultiscaleGroup,
      checkMultiscales g.flatMembers g.attributes.multiscales = .ok () ↔
        ∀ ms ∈ g.attributes.multiscales, ∀ ds ∈ ms.datasets,
          ∃ shape, g.flatMembers.lookup (validationKey ds.path) =
            some (.array shape) ∧ shape.length = ms.ndim := by
    intro g
    rw [checkMultiscales_ok_iff]
    constructor
    · intro h ms hms ds hds
      exact (checkDataset_ok_iff _ _ _).mp (h ms hms ds hds)
    · intro h ms hms ds hds
      exact (checkDataset_ok_iff _ _ _).mpr (h ms hms ds hds)
  refine ⟨?_, ?_, ?_, ?_, ?_⟩
  · intro g g'
    constructor
    · intro h
      unfold check_arrays_compatible at h
      cases hcm : checkMultiscales g.flatMembers g.attributes.multiscales with
      | error e =>
        rw [hcm] at h
        exact Except.noConfusion h
      | ok u =>
        cases u
        rw [hcm] at h
        exact ⟨(Except.ok.inj h).symm, (key g).mp hcm⟩
    · rintro ⟨rfl, hall⟩
      unfold check_arrays_compatible
      rw [(key g').mpr hall]
  · intro flat n ds h
    unfold checkDataset
    rw [h]
  · intro flat n ds h
    unfold checkDataset
    rw [h]
  · intro flat n ds shape h hne
    unfold checkDataset
    rw [h]
    show (if shape.length ≠ n then
            Except.error (SchemaErr.arrayDimMismatch ds.path n shape.length)
          else Except.ok ()) =
      Except.error (SchemaErr.arrayDimMismatch ds.path n shape.length)
    rw [if_pos hne]
  · intro g e h
    unfold check_arrays_compatible at h
    cases hcm : checkMultiscales g.flatMembers g.attributes.multiscales with
    | error e2 =>
      rw [hcm] at h
      have he : e2 = e := Except.error.inj h
      rw [he] at hcm
      exact checkMultiscales_error hcm
    | ok u =>
      cases u
      rw [hcm] at h
      exact Except.noConfusion h

/-- C2 witness: a dataset path `"0"` resolving to a rank-2 array under a
3-axis multiscale yields the dimensionality-mismatch error, and an absent
path `"1"` yields the missing-array error. -/
theorem multiscaleGroup_datasets_resolve_witness :
    checkDataset [("/0", ZarrNode.array [10, 10])] 3 ⟨"0", []⟩ =
      .error (.arrayDimMismatch "0" 3 2) ∧
    checkDataset [] 2 ⟨"1", []⟩ = .error (.missingArray "1") := by
  constructor
  · exact multiscaleGroup_datasets_resolve_to_matching_arrays.2.2.2.1
      [("/0", ZarrNode.array [10, 10])] 3 ⟨"0", []⟩ [10, 10] rfl (by decide)
  · exact multiscaleGroup_datasets_resolve_to_matching_arrays.2.1
      [] 2 ⟨"1", []⟩ rfl

/-- C10: `_check_arrays_compatible` normalizes dataset paths by stripping
leading slashes, so two paths differing only in leading slashes are looked up
under the identical flattened key, while `from_zarr` inserts discovered
arrays under the unstripped key `"/" + path` - so for a path with a leading
slash the insertion key and the validation lookup key differ. -/
theorem flat_key_computation_mismatch :
    (∀ p q, lstripSlash p = lstripSlash q → validationKey p = validationKey q) ∧
    (∀ p, p.toList.head? = some '/' → insertionKey p ≠ validationKey p) ∧
    insertionKey "/0" = "//0" ∧ validationKey "/0" = "/0" := by
  refine ⟨?_, ?_, rfl, rfl⟩
  · intro p q h
    unfold validationKey
    rw [h]
  · intro p hp heq
    have hdata : ("/" ++ p).data = ("/" ++ lstripSlash p).data :=
      congrArg String.data heq
    rw [String.data_append, String.data_append] at hdata
    have hsl : ("/" : String).data = ['/'] := rfl
    rw [hsl] at hdata
    have hpl : p.data = (lstripSlash p).data :=
      List.append_cancel_left hdata
    obtain ⟨t, ht⟩ : ∃ t, p.data = '/' :: t := by
      cases hd : p.data with
      | nil =>
        rw [show p.toList = p.data from rfl, hd] at hp
        exact Option.noConfusion hp
      | cons c t =>
        have hc : c = '/' := by
          rw [show p.toList = p.data from rfl, hd] at hp
          exact Option.some.inj hp
        exact ⟨t, by rw [hc]⟩
    have hstrip : (lstripSlash p).data =
        p.data.dropWhile (fun c => c = '/') := rfl
    rw [hstrip, ht] at hpl
    rw [List.dropWhile_cons_of_pos (by simp)] at hpl
    have hlen := congrArg List.length hpl
    rw [List.length_cons] at hlen
    have hle := length_dropWhile_le (fun c => decide (c = '/')) t
    omega

/-- C10 witness: the leading-slash path `"/0"` and the bare path `"0"` share
the validation lookup key, while the insertion key of `"/0"` differs from its
validation key. -/
theorem flat_key_computation_mismatch_witness :
    validationKey "/0" = validationKey "0" ∧
    insertionKey "/0" ≠ validationKey "/0" := by
  constructor
  · exact flat_key_computation_mismatch.1 "/0" "0" rfl
  · exact flat_key_computation_mismatch.2.1 "/0" rfl

end OmeZarr
